import Mathlib

/-!
Shallow embedding of the mcp-google-workspace OAuth2 credential lifecycle
(`src/server.ts`, `GAuthService` in `src/types/tool-handler.ts`) and of the
Gmail tool helpers (`decodeBase64Data`, `bulkGetEmails`, `bulkArchive`).

Pure data is translated directly; the stateful parts (credential file store,
the callback listener) are explicit state passing; remote collaborators
(token endpoint, user-info endpoint, Gmail REST) are function-typed inputs
whose outcomes parameterize the embedded control flow.
-/

/-- JavaScript truthiness of an optional string (`undefined`/`''` are falsy),
used by the source for `refresh_token` and `query.code` checks. -/
def truthy : Option String → Bool
  | none => false
  | some s => s != ""

/-- OAuth2 token material for one account, as held in
`OAuth2Client.credentials` and serialized into `.oauth2.{email}.json`. -/
structure TokenRecord where
  access_token : Option String := none
  refresh_token : Option String := none
  expiry_date : Option Nat := none
  scopes : List String := []
  deriving DecidableEq

/-- The fixed redirect URI (`src/types/tool-handler.ts` line 17). -/
def REDIRECT_URI : String := "http://localhost:4100/code"

/-- The required scope set (`src/types/tool-handler.ts` lines 18-23). -/
def SCOPES : List String :=
  ["openid",
   "https://www.googleapis.com/auth/userinfo.email",
   "https://mail.google.com/",
   "https://www.googleapis.com/auth/calendar"]

/-- Modelled from the spec: `gauth.credentialsHaveScopes` is called from
`setupOAuth2` (`src/server.ts` line 172) but its body is not among the source
files. Per spec §3/§4.3 a stored record is under-scoped exactly when its
granted scopes do not cover the required scope set, so the check succeeds iff
every required scope is among the record's granted scopes. -/
def credentialsHaveScopes (credentials : TokenRecord) : Bool :=
  SCOPES.all (fun s => credentials.scopes.contains s)

/-- The application OAuth2 client identity, as built by
`GAuthService.initializeClient` from the gauth file. -/
structure OAuth2Client where
  client_id : String
  client_secret : String
  redirectUri : String
  deriving DecidableEq

/-- `GAuthService.initializeClient`: the client is always constructed with the
fixed `REDIRECT_URI` as its redirect endpoint. -/
def GAuthService.initializeClient (client_id client_secret : String) : OAuth2Client :=
  { client_id := client_id, client_secret := client_secret, redirectUri := REDIRECT_URI }

/-- The parameters `oauth2Client.generateAuthUrl` embeds into an
authorization URL (`GAuthService.getAuthorizationUrl`). -/
structure AuthUrl where
  redirect_uri : String
  scope : List String
  state : String
  access_type : String
  prompt : String
  login_hint : String
  deriving DecidableEq

/-- `GAuthService.getAuthorizationUrl`: offline access, forced consent,
the required scopes, the caller-supplied state, the account email as login
hint, and the client's redirect URI. -/
def getAuthorizationUrl (client : OAuth2Client) (emailAddress : String)
    (state : String) : AuthUrl :=
  { redirect_uri := client.redirectUri
    scope := SCOPES
    state := state
    access_type := "offline"
    prompt := "consent"
    login_hint := emailAddress }

/-- The per-account credential file store, keyed by email
(one `.oauth2.{email}.json` file per account). -/
abbrev TokenStore := String → Option TokenRecord

/-- `GAuthService.getStoredCredentials`: read the credential file for the
given user; absence (unreadable/missing file) is `none`, not an error. -/
def getStoredCredentials (store : TokenStore) (userId : String) :
    Option TokenRecord :=
  store userId

/-- `GAuthService.storeCredentials`: unconditionally overwrite the
credential file keyed by the given user id. -/
def storeCredentials (store : TokenStore) (userId : String)
    (credentials : TokenRecord) : TokenStore :=
  fun e => if e = userId then some credentials else store e

/-- The user-info payload `GAuthService.getUserInfo` returns on success
(it throws `NoUserIdError` when `data.id` is absent, so a returned payload
always carries a stable id). -/
structure UserInfo where
  id : String
  email : String
  deriving DecidableEq

/-- Outcome of the remote `oauth2.userinfo.get` call as surfaced by
`GAuthService.getUserInfo`: success, `NoUserIdError`, or any other thrown
error (network failure, revoked token, ...). -/
inductive UserInfoOutcome where
  | ok (info : UserInfo)
  | noUserId
  | otherError
  deriving DecidableEq

/-- The `GetCredentialsError` hierarchy: both variants carry the
authorization URL attached before the error is rethrown. -/
inductive GetCredentialsError where
  | codeExchangeError (authorizationUrl : AuthUrl)
  | noRefreshTokenError (authorizationUrl : AuthUrl)
  deriving DecidableEq

/-- `GAuthService.getCredentials`, with the two remote calls as inputs:
`exchangeResult` is what `exchangeCode` produced (`none` models its
`CodeExchangeError`), `userInfoResult` what `getUserInfo` produced for the
exchanged credentials. Returns the result and the updated file store.
`emailAddress` starts as the empty string and is set only after identity
resolution succeeds, so the URLs attached on the early error paths carry an
empty login hint. -/
def getCredentials (client : OAuth2Client) (store : TokenStore)
    (exchangeResult : Option TokenRecord) (userInfoResult : UserInfoOutcome)
    (state : String) :
    Except GetCredentialsError TokenRecord × TokenStore :=
  match exchangeResult with
  | none =>
      (.error (.codeExchangeError (getAuthorizationUrl client "" state)), store)
  | some credentials =>
      match userInfoResult with
      | .noUserId =>
          (.error (.noRefreshTokenError (getAuthorizationUrl client "" state)), store)
      | .otherError =>
          (.error (.noRefreshTokenError (getAuthorizationUrl client "" state)), store)
      | .ok userInfo =>
          let emailAddress := userInfo.email
          if truthy credentials.refresh_token then
            (.ok credentials, storeCredentials store emailAddress credentials)
          else
            match getStoredCredentials store emailAddress with
            | some storedCredentials =>
                if truthy storedCredentials.refresh_token then
                  (.ok storedCredentials, store)
                else
                  (.error (.noRefreshTokenError
                    (getAuthorizationUrl client emailAddress state)), store)
            | none =>
                (.error (.noRefreshTokenError
                  (getAuthorizationUrl client emailAddress state)), store)

/-- One entry of the account registry (`.accounts.json`). -/
structure AccountInfo where
  email : String
  accountType : String
  extraInfo : String
  deriving DecidableEq

/-- `GoogleWorkspaceServer.startAuthFlow`: build the authorization URL for
the user (state `{}` stringified), spawn the browser (launch failure is only
logged), and bind the callback listener on the configured oauth port.
Returned as the URL together with the bound port. -/
def startAuthFlow (client : OAuth2Client) (oauthPort : Nat)
    (userId : String) : AuthUrl × Nat :=
  (getAuthorizationUrl client userId "\x7b\x7d", oauthPort)

/-- Outcome of `GoogleWorkspaceServer.setupOAuth2` for one tool invocation. -/
inductive SetupResult where
  | errNoAccounts
  | errNotConfigured
  | errUserInfo
  | authFlowStarted (authorizationUrl : AuthUrl) (listenerPort : Nat)
  | proceed (credentials : TokenRecord)
  deriving DecidableEq

/-- `GoogleWorkspaceServer.setupOAuth2` (`src/server.ts` lines 159-186):
registry checks, stored-credential lookup, scope check, then the
refresh/re-persist path. `userInfoResult` is the outcome of the
`getUserInfo` call on the stored credentials (the silent refresh); the
`expiry_date` comparison in the source only logs and decides nothing. -/
def setupOAuth2 (client : OAuth2Client) (accounts : List AccountInfo)
    (store : TokenStore) (oauthPort : Nat) (userId : String)
    (userInfoResult : UserInfoOutcome) : SetupResult × TokenStore :=
  if accounts.length = 0 then (.errNoAccounts, store)
  else if !(accounts.any (fun a => a.email == userId)) then
    (.errNotConfigured, store)
  else
    match getStoredCredentials store userId with
    | none =>
        let flow := startAuthFlow client oauthPort userId
        (.authFlowStarted flow.1 flow.2, store)
    | some credentials =>
        if !(credentialsHaveScopes credentials) then
          let flow := startAuthFlow client oauthPort userId
          (.authFlowStarted flow.1 flow.2, store)
        else
          match userInfoResult with
          | .ok _ => (.proceed credentials, storeCredentials store userId credentials)
          | _ => (.errUserInfo, store)

/-- An inbound HTTP request as seen by `OAuthServer.handleRequest`:
the parsed pathname and the parsed `code` query parameter
(`some ""` models `?code=`, which is falsy in the source's check). -/
structure HttpRequest where
  pathname : String
  codeParam : Option String
  deriving DecidableEq

/-- The response written by `OAuthServer.handleRequest`. -/
structure HttpResponse where
  status : Nat
  body : String
  deriving DecidableEq

/-- State of the one-shot callback listener: whether the HTTP server is
still accepting requests, plus the credential file store it writes through
`getCredentials`. -/
structure OAuthServerState where
  listening : Bool
  store : TokenStore

/-- `OAuthServer.handleRequest` (`src/server.ts` lines 52-74): 404 off the
`/code` path, 400 when `code` is falsy, otherwise answer 200 with the
confirmation body and run `getCredentials`. `this.server.close()` is the
statement after the awaited `getCredentials` call, so it executes only when
that call returns: a thrown `GetCredentialsError` skips it and the listener
keeps its previous state. -/
def handleRequest (client : OAuth2Client) (st : OAuthServerState)
    (req : HttpRequest) (exchangeResult : Option TokenRecord)
    (userInfoResult : UserInfoOutcome) : HttpResponse × OAuthServerState :=
  if req.pathname != "/code" then ({ status := 404, body := "" }, st)
  else if !(truthy req.codeParam) then ({ status := 400, body := "" }, st)
  else
    let response : HttpResponse :=
      { status := 200, body := "Auth successful! You can close the tab!" }
    match getCredentials client st.store exchangeResult userInfoResult "\x7b\x7d" with
    | (.ok _, store2) => (response, { listening := false, store := store2 })
    | (.error _, store2) => (response, { listening := st.listening, store := store2 })

/-- The listener as a servable resource: a closed server accepts nothing
(`server.close()` stops it from serving further requests). -/
def serveRequest (client : OAuth2Client) (st : OAuthServerState)
    (req : HttpRequest) (exchangeResult : Option TokenRecord)
    (userInfoResult : UserInfoOutcome) :
    Option HttpResponse × OAuthServerState :=
  if st.listening then
    let r := handleRequest client st req exchangeResult userInfoResult
    (some r.1, r.2)
  else (none, st)

/-- Prefix test on char lists (used to parse the localhost port below). -/
def isPrefixList : List Char → List Char → Bool
  | [], _ => true
  | _ :: _, [] => false
  | p :: ps, c :: cs => p == c && isPrefixList ps cs

/-- Extract the port from a `http://localhost:PORT/...` URI. -/
def portOfLocalhostUri (s : String) : Option Nat :=
  let pre := "http://localhost:".toList
  let l := s.toList
  if isPrefixList pre l then
    let digits := (l.drop pre.length).takeWhile Char.isDigit
    if digits.length = 0 then none
    else some (digits.foldl (fun n c => n * 10 + (c.toNat - 48)) 0)
  else none

/-- One MIME part of a Gmail message payload, as inspected by the
attachment-collection loops in `GmailTools`. -/
structure MessagePart where
  partId : String
  filename : String
  mimeType : String
  attachmentId : Option String
  deriving DecidableEq

/-- A Gmail message as returned by `gmail.users.messages.get`
(`format: full`): its id and its payload parts. -/
structure MessageData where
  id : String
  parts : List MessagePart
  deriving DecidableEq

/-- One entry of the `attachments` record built for a message part that
carries an `attachmentId`. -/
structure AttachmentEntry where
  partId : String
  filename : String
  mimeType : String
  attachmentId : String
  deriving DecidableEq

/-- The attachment-collection loop of `getEmail`/`bulkGetEmails`: keep the
parts whose body carries an `attachmentId`. -/
def extractAttachments (parts : List MessagePart) : List AttachmentEntry :=
  parts.filterMap (fun p =>
    p.attachmentId.map (fun aid =>
      { partId := p.partId, filename := p.filename, mimeType := p.mimeType,
        attachmentId := aid }))

/-- The per-message result `bulkGetEmails` builds: the message data spread
together with the collected attachments. -/
structure EmailResult where
  message : MessageData
  attachments : List AttachmentEntry
  deriving DecidableEq

/-- `Promise.all` over one fallible call per element: any rejection rejects
the whole aggregate, and no partial list of fulfilled values survives. -/
def promiseAll {α β ε : Type} (f : α → Except ε β) : List α → Except ε (List β)
  | [] => .ok []
  | x :: xs =>
      match f x with
      | .error e => .error e
      | .ok y =>
          match promiseAll f xs with
          | .error e => .error e
          | .ok ys => .ok (y :: ys)

/-- Failure modes of a Gmail tool handler: a missing required argument, or a
rethrown Gmail API error. -/
inductive ToolError where
  | missingArgument (argName : String)
  | apiError (message : String)
  deriving DecidableEq

/-- `GmailTools.bulkGetEmails` (`part_000` lines 474-525): argument checks,
then `Promise.all` of one `messages.get` per id (the remote call is the
`fetch` input), each mapped to the message plus its attachments; any failure
is rethrown for the whole batch. -/
def bulkGetEmails (fetch : String → Except String MessageData)
    (userId : String) (emailIds : List String) :
    Except ToolError (List EmailResult) :=
  if userId = "" then .error (.missingArgument "user_id")
  else if emailIds.length = 0 then .error (.missingArgument "email_ids")
  else
    match promiseAll (fun emailId =>
        (fetch emailId).map (fun email =>
          { message := email, attachments := extractAttachments email.parts }))
        emailIds with
    | .ok emails => .ok emails
    | .error e => .error (.apiError e)

/-- `GmailTools.bulkArchive` (`part_000` lines 819-852): argument checks,
then `Promise.all` of one `messages.modify` (remove INBOX label) per id
(the remote call is the `modify` input); any failure is rethrown for the
whole batch, otherwise the joined success message is returned. -/
def bulkArchive (modify : String → Except String Unit)
    (userId : String) (messageIds : List String) :
    Except ToolError String :=
  if userId = "" then .error (.missingArgument "user_id")
  else if messageIds.length = 0 then .error (.missingArgument "message_ids")
  else
    match promiseAll (fun messageId =>
        (modify messageId).map (fun _ => messageId)) messageIds with
    | .ok archivedMessages =>
        .ok ("Messages " ++ String.intercalate ", " archivedMessages
          ++ " archived successfully")
    | .error e => .error (.apiError e)

/-- The standard base64 alphabet, indexed by sextet value. -/
def b64StdAlphabet : List Char :=
  "ABCDEFGHIJKLMNOPQRSTUVWXYZabcdefghijklmnopqrstuvwxyz0123456789+/".toList

/-- The base64url alphabet (`-` and `_` in place of `+` and `/`). -/
def b64UrlAlphabet : List Char :=
  "ABCDEFGHIJKLMNOPQRSTUVWXYZabcdefghijklmnopqrstuvwxyz0123456789-_".toList

/-- The base64url character for a sextet value. -/
def b64UrlChar (v : Nat) : Char := b64UrlAlphabet.getD v '?'

/-- The standard base64 character for a sextet value. -/
def b64StdChar (v : Nat) : Char := b64StdAlphabet.getD v '?'

/-- The sextet value of a standard base64 character. -/
def b64StdVal (c : Char) : Nat := b64StdAlphabet.indexOf c

/-- Unpadded base64url encoding of a byte sequence (what Node's
`Buffer.toString` with the `base64url` encoding produces), three bytes to
four sextets. -/
def encodeBase64Url : List Nat → List Char
  | [] => []
  | [b1] =>
      [b64UrlChar (b1 / 4), b64UrlChar (b1 % 4 * 16)]
  | [b1, b2] =>
      [b64UrlChar (b1 / 4), b64UrlChar (b1 % 4 * 16 + b2 / 16),
       b64UrlChar (b2 % 16 * 4)]
  | b1 :: b2 :: b3 :: rest =>
      b64UrlChar (b1 / 4) :: b64UrlChar (b1 % 4 * 16 + b2 / 16) ::
      b64UrlChar (b2 % 16 * 4 + b3 / 64) :: b64UrlChar (b3 % 64) ::
      encodeBase64Url rest

/-- Standard base64 decoding of a padded character stream (what Node's
`Buffer.from` with the `base64` encoding computes on well-formed input):
four sextets to three bytes, with `=` padding cutting the last group to one
or two bytes. -/
def decodeB64Chunks : List Char → List Nat
  | c1 :: c2 :: c3 :: c4 :: rest =>
      let v1 := b64StdVal c1
      let v2 := b64StdVal c2
      if c3 = '=' then [v1 * 4 + v2 / 16]
      else
        let v3 := b64StdVal c3
        if c4 = '=' then [v1 * 4 + v2 / 16, v2 % 16 * 16 + v3 / 4]
        else
          (v1 * 4 + v2 / 16) :: (v2 % 16 * 16 + v3 / 4) ::
            (v3 % 4 * 64 + b64StdVal c4) :: decodeB64Chunks rest
  | _ => []

/-- The two character replacements `decodeBase64Data` performs
(`-` to `+` and `_` to `/`). -/
def urlToStdChar (c : Char) : Char :=
  if c = '-' then '+' else if c = '_' then '/' else c

/-- `decodeBase64Data` (`part_000` lines 8-12): map the base64url alphabet
back to the standard one, append `=` padding up to a multiple of four, and
base64-decode the result into bytes. -/
def decodeBase64Data (fileData : String) : List Nat :=
  let standardBase64Data := fileData.toList.map urlToStdChar
  let padding := List.replicate ((4 - standardBase64Data.length % 4) % 4) '='
  decodeB64Chunks (standardBase64Data ++ padding)

/-- A sample client identity, as `initialize` constructs it. -/
def sampleClient : OAuth2Client := GAuthService.initializeClient "cid" "csecret"

/-- The empty credential store (no `.oauth2.*.json` files yet). -/
def emptyStore : TokenStore := fun _ => none

/-- A fully-scoped token record with a refresh token and an expiry in the
past. -/
def sampleToken : TokenRecord :=
  { access_token := some "ya29.a0", refresh_token := some "1//refresh",
    expiry_date := some 0, scopes := SCOPES }

/-- A token record from a code exchange that yielded no refresh token. -/
def sampleTokenNoRefresh : TokenRecord :=
  { access_token := some "ya29.a0", refresh_token := none,
    expiry_date := some 1000, scopes := SCOPES }

/-- A registry entry for `a@example.com`. -/
def sampleAccount : AccountInfo :=
  { email := "a@example.com", accountType := "personal", extraInfo := "" }

/-- A store holding credentials for `a@example.com` only. -/
def sampleStore : TokenStore :=
  storeCredentials emptyStore "a@example.com" sampleToken

/-- The user-info payload of an identity resolution that answered
`b@example.com`. -/
def sampleUserInfo : UserInfo := { id := "115", email := "b@example.com" }

/-! ## Auxiliary lemmas -/

/-- Finite check: replacing `-`/`_` on a base64url character yields the
standard character of the same sextet. -/
theorem urlToStdChar_b64UrlChar_fin :
    ∀ v : Fin 64, urlToStdChar (b64UrlChar v.val) = b64StdChar v.val := by decide

/-- Finite check: the standard alphabet lookup inverts the standard
character of a sextet. -/
theorem b64StdVal_b64StdChar_fin :
    ∀ v : Fin 64, b64StdVal (b64StdChar v.val) = v.val := by decide

/-- Finite check: no alphabet character is the padding character. -/
theorem b64StdChar_ne_pad_fin : ∀ v : Fin 64, b64StdChar v.val ≠ '=' := by decide

theorem urlToStdChar_b64UrlChar (v : Nat) (hv : v < 64) :
    urlToStdChar (b64UrlChar v) = b64StdChar v :=
  urlToStdChar_b64UrlChar_fin ⟨v, hv⟩

theorem b64StdVal_b64StdChar (v : Nat) (hv : v < 64) :
    b64StdVal (b64StdChar v) = v :=
  b64StdVal_b64StdChar_fin ⟨v, hv⟩

theorem b64StdChar_ne_pad (v : Nat) (hv : v < 64) : b64StdChar v ≠ '=' :=
  b64StdChar_ne_pad_fin ⟨v, hv⟩

/-- Decoding one full (non-padded) group of four alphabet characters. -/
theorem decodeB64Chunks_cons (v1 v2 v3 v4 : Nat)
    (h1 : v1 < 64) (h2 : v2 < 64) (h3 : v3 < 64) (h4 : v4 < 64)
    (rest : List Char) :
    decodeB64Chunks (b64StdChar v1 :: b64StdChar v2 :: b64StdChar v3 ::
        b64StdChar v4 :: rest)
      = (v1 * 4 + v2 / 16) :: (v2 % 16 * 16 + v3 / 4) ::
        (v3 % 4 * 64 + v4) :: decodeB64Chunks rest := by
  simp only [decodeB64Chunks]
  rw [if_neg (b64StdChar_ne_pad v3 h3), if_neg (b64StdChar_ne_pad v4 h4),
    b64StdVal_b64StdChar v1 h1, b64StdVal_b64StdChar v2 h2,
    b64StdVal_b64StdChar v3 h3, b64StdVal_b64StdChar v4 h4]

/-- Decoding a final group with two padding characters. -/
theorem decodeB64Chunks_pad2 (v1 v2 : Nat) (h1 : v1 < 64) (h2 : v2 < 64) :
    decodeB64Chunks [b64StdChar v1, b64StdChar v2, '=', '=']
      = [v1 * 4 + v2 / 16] := by
  simp only [decodeB64Chunks, if_true]
  rw [b64StdVal_b64StdChar v1 h1, b64StdVal_b64StdChar v2 h2]

/-- Decoding a final group with one padding character. -/
theorem decodeB64Chunks_pad1 (v1 v2 v3 : Nat)
    (h1 : v1 < 64) (h2 : v2 < 64) (h3 : v3 < 64) :
    decodeB64Chunks [b64StdChar v1, b64StdChar v2, b64StdChar v3, '=']
      = [v1 * 4 + v2 / 16, v2 % 16 * 16 + v3 / 4] := by
  simp only [decodeB64Chunks, if_true]
  rw [if_neg (b64StdChar_ne_pad v3 h3)]
  rw [b64StdVal_b64StdChar v1 h1, b64StdVal_b64StdChar v2 h2,
    b64StdVal_b64StdChar v3 h3]

/-- The replace-pad-decode pipeline of `decodeBase64Data` inverts the
base64url encoding, stated on the underlying character list. -/
theorem decodeB64Chunks_encode : ∀ (bytes : List Nat), (∀ b ∈ bytes, b < 256) →
    decodeB64Chunks ((encodeBase64Url bytes).map urlToStdChar ++
      List.replicate ((4 - (encodeBase64Url bytes).length % 4) % 4) '=') = bytes
  | [], _ => rfl
  | [b1], h => by
      have hb1 : b1 < 256 := h b1 (by simp)
      show decodeB64Chunks
        [urlToStdChar (b64UrlChar (b1 / 4)), urlToStdChar (b64UrlChar (b1 % 4 * 16)),
          '=', '='] = [b1]
      rw [urlToStdChar_b64UrlChar (b1 / 4) (by omega),
        urlToStdChar_b64UrlChar (b1 % 4 * 16) (by omega),
        decodeB64Chunks_pad2 (b1 / 4) (b1 % 4 * 16) (by omega) (by omega)]
      have : b1 / 4 * 4 + b1 % 4 * 16 / 16 = b1 := by omega
      rw [this]
  | [b1, b2], h => by
      have hb1 : b1 < 256 := h b1 (by simp)
      have hb2 : b2 < 256 := h b2 (by simp)
      show decodeB64Chunks
        [urlToStdChar (b64UrlChar (b1 / 4)),
          urlToStdChar (b64UrlChar (b1 % 4 * 16 + b2 / 16)),
          urlToStdChar (b64UrlChar (b2 % 16 * 4)), '='] = [b1, b2]
      rw [urlToStdChar_b64UrlChar (b1 / 4) (by omega),
        urlToStdChar_b64UrlChar (b1 % 4 * 16 + b2 / 16) (by omega),
        urlToStdChar_b64UrlChar (b2 % 16 * 4) (by omega),
        decodeB64Chunks_pad1 (b1 / 4) (b1 % 4 * 16 + b2 / 16) (b2 % 16 * 4)
          (by omega) (by omega) (by omega)]
      have e1 : b1 / 4 * 4 + (b1 % 4 * 16 + b2 / 16) / 16 = b1 := by omega
      have e2 : (b1 % 4 * 16 + b2 / 16) % 16 * 16 + b2 % 16 * 4 / 4 = b2 := by omega
      rw [e1, e2]
  | b1 :: b2 :: b3 :: rest, h => by
      have hb1 : b1 < 256 := h b1 (by simp)
      have hb2 : b2 < 256 := h b2 (by simp)
      have hb3 : b3 < 256 := h b3 (by simp)
      have hrest : ∀ b ∈ rest, b < 256 := fun b hb => h b (by simp [hb])
      have ih := decodeB64Chunks_encode rest hrest
      simp only [encodeBase64Url, List.map_cons, List.length_cons, List.cons_append]
      have hpad : (4 - ((encodeBase64Url rest).length + 1 + 1 + 1 + 1) % 4) % 4
          = (4 - (encodeBase64Url rest).length % 4) % 4 := by omega
      rw [hpad, urlToStdChar_b64UrlChar (b1 / 4) (by omega),
        urlToStdChar_b64UrlChar (b1 % 4 * 16 + b2 / 16) (by omega),
        urlToStdChar_b64UrlChar (b2 % 16 * 4 + b3 / 64) (by omega),
        urlToStdChar_b64UrlChar (b3 % 64) (by omega),
        decodeB64Chunks_cons (b1 / 4) (b1 % 4 * 16 + b2 / 16) (b2 % 16 * 4 + b3 / 64)
          (b3 % 64) (by omega) (by omega) (by omega) (by omega), ih]
      have e1 : b1 / 4 * 4 + (b1 % 4 * 16 + b2 / 16) / 16 = b1 := by omega
      have e2 : (b1 % 4 * 16 + b2 / 16) % 16 * 16 + (b2 % 16 * 4 + b3 / 64) / 4 = b2 := by
        omega
      have e3 : (b2 % 16 * 4 + b3 / 64) % 4 * 64 + b3 % 64 = b3 := by omega
      rw [e1, e2, e3]

/-! ## Claim theorems -/

/-- C8: `decodeBase64Data` is a left inverse of base64url encoding: for every
byte sequence, mapping `-` to `+` and `_` to `/`, appending `=` padding to a
multiple of four and base64-decoding recovers exactly the original bytes. -/
theorem decodeBase64Data_roundtrip (bytes : List Nat) (h : ∀ b ∈ bytes, b < 256) :
    decodeBase64Data (String.mk (encodeBase64Url bytes)) = bytes := by
  have hmain := decodeB64Chunks_encode bytes h
  simpa [decodeBase64Data, String.toList, List.length_map] using hmain

/-- C8 witness: the round trip evaluated on the concrete bytes
`[77, 97, 110, 255]`. -/
theorem decodeBase64Data_roundtrip_witness :
    (∀ b ∈ [77, 97, 110, 255], b < 256)
    ∧ decodeBase64Data (String.mk (encodeBase64Url [77, 97, 110, 255]))
        = [77, 97, 110, 255] :=
  ⟨by decide, decodeBase64Data_roundtrip [77, 97, 110, 255] (by decide)⟩

/-- If `Promise.all` fulfilled, every individual call fulfilled. -/
theorem promiseAll_ok_of_mem {α β ε : Type} (f : α → Except ε β) :
    ∀ (l : List α) (ys : List β), promiseAll f l = .ok ys →
      ∀ x ∈ l, ∃ y, f x = .ok y := by
  intro l
  induction l with
  | nil => intro ys _ x hx; cases hx
  | cons a as ih =>
      intro ys hok x hx
      simp only [promiseAll] at hok
      cases hfa : f a with
      | error e => rw [hfa] at hok; cases hok
      | ok y =>
          rw [hfa] at hok
          cases hall : promiseAll f as with
          | error e => rw [hall] at hok; cases hok
          | ok ys2 =>
              rw [hall] at hok
              rcases List.mem_cons.mp hx with h1 | h2
              · exact ⟨y, h1 ▸ hfa⟩
              · exact ih ys2 hall x h2

/-- C7: the bulk Gmail operations are all-or-nothing: when the per-id remote
call fails for any id of the batch, `bulkGetEmails` and `bulkArchive` do not
return a success result — there is no partial-success aggregation for the
ids whose calls did succeed. -/
theorem bulk_gmail_ops_all_or_nothing
    (fetch : String → Except String MessageData)
    (modify : String → Except String Unit)
    (userId : String) (ids : List String) (failedId : String) (errMsg : String)
    (hmem : failedId ∈ ids) :
    (fetch failedId = .error errMsg →
      ∀ res, bulkGetEmails fetch userId ids ≠ .ok res)
    ∧ (modify failedId = .error errMsg →
      ∀ res, bulkArchive modify userId ids ≠ .ok res) := by
  constructor
  · intro hf res hok
    unfold bulkGetEmails at hok
    split at hok
    · cases hok
    · split at hok
      · cases hok
      · cases hp : promiseAll (fun emailId =>
            (fetch emailId).map (fun email =>
              ({ message := email, attachments := extractAttachments email.parts }
                : EmailResult)))
            ids with
        | error e => rw [hp] at hok; cases hok
        | ok emails =>
            obtain ⟨y, hy⟩ := promiseAll_ok_of_mem _ ids emails hp failedId hmem
            rw [hf] at hy
            cases hy
  · intro hm res hok
    unfold bulkArchive at hok
    split at hok
    · cases hok
    · split at hok
      · cases hok
      · cases hp : promiseAll (fun messageId =>
            (modify messageId).map (fun _ => messageId)) ids with
        | error e => rw [hp] at hok; cases hok
        | ok archivedMessages =>
            obtain ⟨y, hy⟩ := promiseAll_ok_of_mem _ ids archivedMessages hp failedId hmem
            rw [hm] at hy
            cases hy

/-- C7 witness: a singleton batch whose one call fails. -/
theorem bulk_gmail_ops_all_or_nothing_witness :
    ("m1" ∈ ["m1"])
    ∧ ((fun _ : String => (Except.error "boom" : Except String MessageData)) "m1"
          = .error "boom" →
        ∀ res, bulkGetEmails (fun _ => .error "boom") "me@example.com" ["m1"] ≠ .ok res)
    ∧ ((fun _ : String => (Except.error "boom" : Except String Unit)) "m1"
          = .error "boom" →
        ∀ res, bulkArchive (fun _ => .error "boom") "me@example.com" ["m1"] ≠ .ok res) :=
  ⟨by decide,
   (bulk_gmail_ops_all_or_nothing (fun _ => .error "boom") (fun _ => .error "boom")
     "me@example.com" ["m1"] "m1" "boom" (by decide)).1,
   (bulk_gmail_ops_all_or_nothing (fun _ => .error "boom") (fun _ => .error "boom")
     "me@example.com" ["m1"] "m1" "boom" (by decide)).2⟩

/-- C9: every authorization URL generated through a client built by
`initialize` embeds the fixed redirect URI `http://localhost:4100/code`,
whatever oauth-port is configured; the redirect therefore lands on the port
bound by `startAuthFlow` exactly when the configured port is 4100. -/
theorem authorizationUrl_redirect_port_fixed (client_id client_secret
    emailAddress state : String) (oauthPort : Nat) :
    (getAuthorizationUrl (GAuthService.initializeClient client_id client_secret)
        emailAddress state).redirect_uri = "http://localhost:4100/code"
    ∧ portOfLocalhostUri
        (getAuthorizationUrl (GAuthService.initializeClient client_id client_secret)
          emailAddress state).redirect_uri = some 4100
    ∧ (portOfLocalhostUri
          (startAuthFlow (GAuthService.initializeClient client_id client_secret)
            oauthPort emailAddress).1.redirect_uri
        = some (startAuthFlow (GAuthService.initializeClient client_id client_secret)
            oauthPort emailAddress).2
      ↔ oauthPort = 4100) := by
  have hport : portOfLocalhostUri REDIRECT_URI = some 4100 := by decide
  refine ⟨rfl, hport, ?_⟩
  show portOfLocalhostUri REDIRECT_URI = some oauthPort ↔ oauthPort = 4100
  rw [hport]
  constructor
  · intro h
    exact (Option.some.injEq 4100 oauthPort ▸ h).symm
  · intro h
    rw [h]

/-- C1: for a tool invocation whose account is in the registry and has a
stored credential record, `setupOAuth2` starts the interactive flow
(constructing an authorization URL) iff the record's granted scopes do not
cover the required scope set; when they do cover and the refresh token is
present, a successful silent-refresh call yields `proceed` (StoredAndValid)
with no authorization URL constructed — whatever `expiry_date` holds, since
the expiry comparison in the source only logs. -/
theorem setupOAuth2_scope_gate (client : OAuth2Client) (accounts : List AccountInfo)
    (store : TokenStore) (oauthPort : Nat) (userId : String)
    (userInfoResult : UserInfoOutcome) (tok : TokenRecord)
    (hacct : accounts.any (fun a => a.email == userId) = true)
    (hstored : store userId = some tok) :
    ((∃ url p, (setupOAuth2 client accounts store oauthPort userId userInfoResult).1
        = .authFlowStarted url p) ↔ credentialsHaveScopes tok = false)
    ∧ (credentialsHaveScopes tok = true → truthy tok.refresh_token = true →
        ∀ info, userInfoResult = .ok info →
          (setupOAuth2 client accounts store oauthPort userId userInfoResult).1
            = .proceed tok) := by
  have hne : ¬ accounts.length = 0 := by
    intro h0
    rw [List.length_eq_zero] at h0
    subst h0
    simp at hacct
  unfold setupOAuth2 getStoredCredentials
  rw [if_neg hne, if_neg (by simp [hacct]), hstored]
  dsimp only
  cases hscope : credentialsHaveScopes tok with
  | false =>
      rw [if_pos (by simp)]
      exact ⟨⟨fun _ => rfl, fun _ => ⟨_, _, rfl⟩⟩,
        fun htrue => Bool.noConfusion htrue⟩
  | true =>
      rw [if_neg (by simp)]
      cases userInfoResult with
      | ok info =>
          exact ⟨⟨fun ⟨url, p, h⟩ => SetupResult.noConfusion h,
            fun hfalse => Bool.noConfusion hfalse⟩,
            fun _ _ _ _ => rfl⟩
      | noUserId =>
          exact ⟨⟨fun ⟨url, p, h⟩ => SetupResult.noConfusion h,
            fun hfalse => Bool.noConfusion hfalse⟩,
            fun _ _ info h => UserInfoOutcome.noConfusion h⟩
      | otherError =>
          exact ⟨⟨fun ⟨url, p, h⟩ => SetupResult.noConfusion h,
            fun hfalse => Bool.noConfusion hfalse⟩,
            fun _ _ info h => UserInfoOutcome.noConfusion h⟩

/-- C1 witness: account `a@example.com` configured, fully-scoped record with
refresh token and an already-passed expiry stored; no auth flow, proceed. -/
theorem setupOAuth2_scope_gate_witness :
    ([sampleAccount].any (fun a => a.email == "a@example.com") = true)
    ∧ (sampleStore "a@example.com" = some sampleToken)
    ∧ (((∃ url p, (setupOAuth2 sampleClient [sampleAccount] sampleStore 4100
          "a@example.com" (.ok sampleUserInfo)).1 = .authFlowStarted url p)
        ↔ credentialsHaveScopes sampleToken = false)
      ∧ (credentialsHaveScopes sampleToken = true →
          truthy sampleToken.refresh_token = true →
          ∀ info, UserInfoOutcome.ok sampleUserInfo = .ok info →
            (setupOAuth2 sampleClient [sampleAccount] sampleStore 4100
              "a@example.com" (.ok sampleUserInfo)).1 = .proceed sampleToken)) :=
  ⟨by decide, by decide,
   setupOAuth2_scope_gate sampleClient [sampleAccount] sampleStore 4100
     "a@example.com" (.ok sampleUserInfo) sampleToken (by decide) (by decide)⟩

/-- C6: a lifecycle check for an email absent from the registry fails with
the not-configured error (the no-accounts error when the registry is empty),
leaves the store untouched, and never starts an authorization flow: no
authorization URL is constructed and no listener port is bound. -/
theorem setupOAuth2_not_configured (client : OAuth2Client)
    (accounts : List AccountInfo) (store : TokenStore) (oauthPort : Nat)
    (userId : String) (userInfoResult : UserInfoOutcome)
    (habsent : ∀ a ∈ accounts, a.email ≠ userId) :
    (accounts ≠ [] →
      setupOAuth2 client accounts store oauthPort userId userInfoResult
        = (.errNotConfigured, store))
    ∧ (accounts = [] →
      setupOAuth2 client accounts store oauthPort userId userInfoResult
        = (.errNoAccounts, store))
    ∧ (∀ url p, (setupOAuth2 client accounts store oauthPort userId
        userInfoResult).1 ≠ .authFlowStarted url p) := by
  have hany : accounts.any (fun a => a.email == userId) = false := by
    rw [List.any_eq_false]
    intro a ha
    simpa using habsent a ha
  cases accounts with
  | nil =>
      refine ⟨fun h => absurd rfl h, ⟨fun _ => rfl, fun url p h => ?_⟩⟩
      exact SetupResult.noConfusion h
  | cons a as =>
      have hsetup : setupOAuth2 client (a :: as) store oauthPort userId
          userInfoResult = (.errNotConfigured, store) := by
        unfold setupOAuth2
        rw [if_neg (by simp), if_pos (by simp [hany])]
      refine ⟨fun _ => hsetup, ⟨fun h => List.noConfusion h, fun url p h => ?_⟩⟩
      rw [hsetup] at h
      exact SetupResult.noConfusion h

/-- C6 witness: `b@example.com` is not in the one-entry registry. -/
theorem setupOAuth2_not_configured_witness :
    (∀ a ∈ [sampleAccount], a.email ≠ "b@example.com")
    ∧ ((([sampleAccount] : List AccountInfo) ≠ [] →
        setupOAuth2 sampleClient [sampleAccount] sampleStore 4100 "b@example.com"
          (.ok sampleUserInfo) = (.errNotConfigured, sampleStore))
      ∧ (([sampleAccount] : List AccountInfo) = [] →
        setupOAuth2 sampleClient [sampleAccount] sampleStore 4100 "b@example.com"
          (.ok sampleUserInfo) = (.errNoAccounts, sampleStore))
      ∧ (∀ url p, (setupOAuth2 sampleClient [sampleAccount] sampleStore 4100
          "b@example.com" (.ok sampleUserInfo)).1 ≠ .authFlowStarted url p)) :=
  ⟨by decide,
   setupOAuth2_not_configured sampleClient [sampleAccount] sampleStore 4100
     "b@example.com" (.ok sampleUserInfo) (by decide)⟩

/-- C2: a successful exchange that yields a refresh token is persisted keyed
by the identity-resolved email from the user-info endpoint, and every other
key of the store — in particular the email the caller originally requested —
is left exactly as it was (so a previously credential-less requested account
stays without stored credentials). -/
theorem getCredentials_keyed_by_resolved_email (client : OAuth2Client)
    (store : TokenStore) (credentials : TokenRecord) (info : UserInfo)
    (state : String) (hrt : truthy credentials.refresh_token = true) :
    (getCredentials client store (some credentials) (.ok info) state).1
        = .ok credentials
    ∧ (getCredentials client store (some credentials) (.ok info) state).2
        info.email = some credentials
    ∧ (∀ e, e ≠ info.email →
        (getCredentials client store (some credentials) (.ok info) state).2 e
          = store e) := by
  unfold getCredentials
  dsimp only
  rw [if_pos hrt]
  refine ⟨rfl, ?_, ?_⟩
  · unfold storeCredentials
    simp
  · intro e he
    unfold storeCredentials
    simp [he]

/-- C2 witness: `a@example.com` was requested (its store entry is empty) but
consent completed as `b@example.com`: the record lands under b's key and
a's entry stays absent. -/
theorem getCredentials_keyed_by_resolved_email_witness :
    (truthy sampleToken.refresh_token = true)
    ∧ ((getCredentials sampleClient emptyStore (some sampleToken)
          (.ok sampleUserInfo) "s").1 = .ok sampleToken
      ∧ (getCredentials sampleClient emptyStore (some sampleToken)
          (.ok sampleUserInfo) "s").2 sampleUserInfo.email = some sampleToken
      ∧ (∀ e, e ≠ sampleUserInfo.email →
          (getCredentials sampleClient emptyStore (some sampleToken)
            (.ok sampleUserInfo) "s").2 e = emptyStore e)) :=
  ⟨by decide,
   getCredentials_keyed_by_resolved_email sampleClient emptyStore sampleToken
     sampleUserInfo "s" (by decide)⟩

/-- C3: when the exchange result lacks a refresh token, `getCredentials`
falls back to the credentials stored for the resolved email and returns them
if they contain a refresh token; when no such stored refresh token exists it
fails with `NoRefreshTokenError` carrying a freshly generated authorization
URL (full scope set, offline access, forced consent, the resolved email as
login hint) with which the flow can be restarted. -/
theorem getCredentials_no_refresh_fallback (client : OAuth2Client)
    (store : TokenStore) (credentials : TokenRecord) (info : UserInfo)
    (state : String) (hrt : truthy credentials.refresh_token = false) :
    (∀ sc, store info.email = some sc → truthy sc.refresh_token = true →
        getCredentials client store (some credentials) (.ok info) state
          = (.ok sc, store))
    ∧ ((∀ sc, store info.email = some sc → truthy sc.refresh_token = false) →
        getCredentials client store (some credentials) (.ok info) state
          = (.error (.noRefreshTokenError
              (getAuthorizationUrl client info.email state)), store)) := by
  unfold getCredentials getStoredCredentials
  dsimp only
  rw [if_neg (by simp [hrt])]
  constructor
  · intro sc hsc hscrt
    rw [hsc]
    dsimp only
    rw [if_pos hscrt]
  · intro hall
    cases hsc : store info.email with
    | none => rfl
    | some sc =>
        dsimp only
        rw [if_neg (by simp [hall sc hsc])]

/-- C3 witness: the exchange yielded no refresh token and nothing is stored
for the resolved email, so the no-refresh-token failure with a fresh URL
applies (the fallback branch holds vacuously). -/
theorem getCredentials_no_refresh_fallback_witness :
    (truthy sampleTokenNoRefresh.refresh_token = false)
    ∧ ((∀ sc, emptyStore sampleUserInfo.email = some sc →
          truthy sc.refresh_token = true →
          getCredentials sampleClient emptyStore (some sampleTokenNoRefresh)
            (.ok sampleUserInfo) "s" = (.ok sc, emptyStore))
      ∧ ((∀ sc, emptyStore sampleUserInfo.email = some sc →
            truthy sc.refresh_token = false) →
          getCredentials sampleClient emptyStore (some sampleTokenNoRefresh)
            (.ok sampleUserInfo) "s"
            = (.error (.noRefreshTokenError (getAuthorizationUrl sampleClient
                sampleUserInfo.email "s")), emptyStore))) :=
  ⟨by decide,
   getCredentials_no_refresh_fallback sampleClient emptyStore sampleTokenNoRefresh
     sampleUserInfo "s" (by decide)⟩

/-- C10: on the `getCredentials` path, a credential file write happens only
for freshly exchanged credentials whose `refresh_token` is present: whenever
a store key changed, the key now holds a record carrying a refresh token. -/
theorem getCredentials_writes_only_with_refresh_token (client : OAuth2Client)
    (store : TokenStore) (exchangeResult : Option TokenRecord)
    (userInfoResult : UserInfoOutcome) (state : String) (e : String)
    (hchanged : (getCredentials client store exchangeResult userInfoResult
      state).2 e ≠ store e) :
    ∃ tok, (getCredentials client store exchangeResult userInfoResult state).2 e
        = some tok
      ∧ truthy tok.refresh_token = true := by
  rcases exchangeResult with _ | credentials
  · exact absurd rfl hchanged
  rcases userInfoResult with info | _ | _
  · unfold getCredentials getStoredCredentials at hchanged ⊢
    dsimp only at hchanged ⊢
    by_cases hrt : truthy credentials.refresh_token
    · rw [if_pos hrt] at hchanged ⊢
      unfold storeCredentials at hchanged ⊢
      dsimp only at hchanged ⊢
      by_cases he : e = info.email
      · rw [if_pos he]
        exact ⟨credentials, rfl, hrt⟩
      · rw [if_neg he] at hchanged
        exact absurd rfl hchanged
    · rw [if_neg hrt] at hchanged ⊢
      cases hsc : store info.email with
      | none => rw [hsc] at hchanged; exact absurd rfl hchanged
      | some sc =>
          rw [hsc] at hchanged
          dsimp only at hchanged
          by_cases hscrt : truthy sc.refresh_token
          · rw [if_pos hscrt] at hchanged; exact absurd rfl hchanged
          · rw [if_neg hscrt] at hchanged; exact absurd rfl hchanged
  · exact absurd rfl hchanged
  · exact absurd rfl hchanged

/-- C10 witness: the only changed key after a successful exchange with a
refresh token holds a record with that refresh token. -/
theorem getCredentials_writes_only_with_refresh_token_witness :
    ((getCredentials sampleClient emptyStore (some sampleToken)
        (.ok sampleUserInfo) "s").2 "b@example.com" ≠ emptyStore "b@example.com")
    ∧ ∃ tok, (getCredentials sampleClient emptyStore (some sampleToken)
          (.ok sampleUserInfo) "s").2 "b@example.com" = some tok
        ∧ truthy tok.refresh_token = true :=
  ⟨by decide,
   getCredentials_writes_only_with_refresh_token sampleClient emptyStore
     (some sampleToken) (.ok sampleUserInfo) "s" "b@example.com" (by decide)⟩

/-- C4 counterexample: a request on the callback path carrying `code=ok`
whose code exchange fails (a `CodeExchangeError` from the token endpoint)
leaves the listener running. In `handleRequest`, `this.server.close()` is
only reached after the awaited `getCredentials` call returns, so a throwing
exchange skips the shutdown — refuting the claim that the listener is shut
down no matter whether the exchange succeeded or failed. -/
theorem handleRequest_failed_exchange_keeps_listening :
    (handleRequest sampleClient { listening := true, store := emptyStore }
        { pathname := "/code", codeParam := some "ok" } none
        (.ok sampleUserInfo)).2.listening = true := by decide

/-- C4 amended: after the listener handles a request on the callback path
with a (truthy) `code` parameter, if the credential pipeline succeeds the
listener is shut down and serves no further request — in particular no
second code exchange; if the pipeline throws, the shutdown is skipped and
the listener keeps its previous listening state. -/
theorem handleRequest_close_only_on_success (client : OAuth2Client)
    (st : OAuthServerState) (req : HttpRequest)
    (exchangeResult : Option TokenRecord) (userInfoResult : UserInfoOutcome)
    (hpath : req.pathname = "/code") (hcode : truthy req.codeParam = true) :
    (∀ tok store2,
        getCredentials client st.store exchangeResult userInfoResult "\x7b\x7d"
          = (.ok tok, store2) →
        (handleRequest client st req exchangeResult userInfoResult).2.listening
            = false
        ∧ ∀ req2 ex2 ui2,
            serveRequest client
              (handleRequest client st req exchangeResult userInfoResult).2
              req2 ex2 ui2
            = (none, (handleRequest client st req exchangeResult userInfoResult).2))
    ∧ (∀ err store2,
        getCredentials client st.store exchangeResult userInfoResult "\x7b\x7d"
          = (.error err, store2) →
        (handleRequest client st req exchangeResult userInfoResult).2.listening
          = st.listening) := by
  have hbne : (req.pathname != "/code") = false := by simp [hpath]
  constructor
  · intro tok store2 hgc
    have hres : (handleRequest client st req exchangeResult userInfoResult).2
        = { listening := false, store := store2 } := by
      unfold handleRequest
      rw [hbne, hcode]
      dsimp only
      rw [hgc]
      rfl
    rw [hres]
    exact ⟨rfl, fun req2 ex2 ui2 => by unfold serveRequest; rw [if_neg (by simp)]⟩
  · intro err store2 hgc
    have hres : (handleRequest client st req exchangeResult userInfoResult).2
        = { listening := st.listening, store := store2 } := by
      unfold handleRequest
      rw [hbne, hcode]
      dsimp only
      rw [hgc]
      rfl
    rw [hres]

/-- C4 amended witness: a successful exchange on the callback path closes
the listener; the hypotheses hold at the concrete request `/code?code=ok`. -/
theorem handleRequest_close_only_on_success_witness :
    (HttpRequest.pathname { pathname := "/code", codeParam := some "ok" } = "/code")
    ∧ (truthy (HttpRequest.codeParam { pathname := "/code", codeParam := some "ok" })
        = true)
    ∧ ((∀ tok store2,
          getCredentials sampleClient
              (OAuthServerState.store { listening := true, store := emptyStore })
              (some sampleToken) (.ok sampleUserInfo) "\x7b\x7d"
            = (.ok tok, store2) →
          (handleRequest sampleClient { listening := true, store := emptyStore }
              { pathname := "/code", codeParam := some "ok" }
              (some sampleToken) (.ok sampleUserInfo)).2.listening = false
          ∧ ∀ req2 ex2 ui2,
              serveRequest sampleClient
                (handleRequest sampleClient { listening := true, store := emptyStore }
                  { pathname := "/code", codeParam := some "ok" }
                  (some sampleToken) (.ok sampleUserInfo)).2 req2 ex2 ui2
              = (none, (handleRequest sampleClient
                  { listening := true, store := emptyStore }
                  { pathname := "/code", codeParam := some "ok" }
                  (some sampleToken) (.ok sampleUserInfo)).2))
      ∧ (∀ err store2,
          getCredentials sampleClient
              (OAuthServerState.store { listening := true, store := emptyStore })
              (some sampleToken) (.ok sampleUserInfo) "\x7b\x7d"
            = (.error err, store2) →
          (handleRequest sampleClient { listening := true, store := emptyStore }
              { pathname := "/code", codeParam := some "ok" }
              (some sampleToken) (.ok sampleUserInfo)).2.listening
            = OAuthServerState.listening { listening := true, store := emptyStore })) :=
  ⟨rfl, by decide,
   handleRequest_close_only_on_success sampleClient
     { listening := true, store := emptyStore }
     { pathname := "/code", codeParam := some "ok" }
     (some sampleToken) (.ok sampleUserInfo) rfl (by decide)⟩

/-- C5: the callback listener answers 404 off the callback path, 400 on the
callback path when `code` is absent (or empty, which the source's falsiness
check treats as absent), and 200 with the confirmation body when a truthy
`code` is present; after a 404 or a 400 the listener is still listening and
still serves later requests, so a correct redirect can still arrive. -/
theorem handleRequest_response_shape (client : OAuth2Client)
    (st : OAuthServerState) (req : HttpRequest)
    (exchangeResult : Option TokenRecord) (userInfoResult : UserInfoOutcome)
    (hl : st.listening = true) :
    (req.pathname ≠ "/code" →
      (handleRequest client st req exchangeResult userInfoResult).1
          = { status := 404, body := "" }
      ∧ (handleRequest client st req exchangeResult userInfoResult).2.listening
          = true
      ∧ ∀ req2 ex2 ui2,
          (serveRequest client
            (handleRequest client st req exchangeResult userInfoResult).2
            req2 ex2 ui2).1 ≠ none)
    ∧ (req.pathname = "/code" → truthy req.codeParam = false →
      (handleRequest client st req exchangeResult userInfoResult).1
          = { status := 400, body := "" }
      ∧ (handleRequest client st req exchangeResult userInfoResult).2.listening
          = true
      ∧ ∀ req2 ex2 ui2,
          (serveRequest client
            (handleRequest client st req exchangeResult userInfoResult).2
            req2 ex2 ui2).1 ≠ none)
    ∧ (req.pathname = "/code" → truthy req.codeParam = true →
      (handleRequest client st req exchangeResult userInfoResult).1
          = { status := 200, body := "Auth successful! You can close the tab!" }) := by
  refine ⟨?_, ?_, ?_⟩
  · intro hpath
    have hres : handleRequest client st req exchangeResult userInfoResult
        = ({ status := 404, body := "" }, st) := by
      unfold handleRequest
      rw [if_pos (by simp [hpath])]
    rw [hres]
    refine ⟨rfl, hl, fun req2 ex2 ui2 => ?_⟩
    unfold serveRequest
    rw [if_pos (by simp [hl])]
    exact Option.noConfusion
  · intro hpath hcode
    have hres : handleRequest client st req exchangeResult userInfoResult
        = ({ status := 400, body := "" }, st) := by
      unfold handleRequest
      rw [if_neg (by simp [hpath]), if_pos (by simp [hcode])]
    rw [hres]
    refine ⟨rfl, hl, fun req2 ex2 ui2 => ?_⟩
    unfold serveRequest
    rw [if_pos (by simp [hl])]
    exact Option.noConfusion
  · intro hpath hcode
    unfold handleRequest
    rw [if_neg (by simp [hpath]), if_neg (by simp [hcode])]
    dsimp only
    cases hgc : getCredentials client st.store exchangeResult userInfoResult
        "\x7b\x7d" with
    | mk res store2 => cases res with
      | ok tok => rfl
      | error err => rfl

/-- C5 witness: the listener is up; the concrete probes `GET /other`,
`GET /code` without code, and `GET /code?code=ok` hit the three clauses. -/
theorem handleRequest_response_shape_witness :
    (OAuthServerState.listening { listening := true, store := emptyStore } = true)
    ∧ ((HttpRequest.pathname { pathname := "/other", codeParam := none } ≠ "/code" →
        (handleRequest sampleClient { listening := true, store := emptyStore }
            { pathname := "/other", codeParam := none } (some sampleToken)
            (.ok sampleUserInfo)).1 = { status := 404, body := "" }
        ∧ (handleRequest sampleClient { listening := true, store := emptyStore }
            { pathname := "/other", codeParam := none } (some sampleToken)
            (.ok sampleUserInfo)).2.listening = true
        ∧ ∀ req2 ex2 ui2,
            (serveRequest sampleClient
              (handleRequest sampleClient { listening := true, store := emptyStore }
                { pathname := "/other", codeParam := none } (some sampleToken)
                (.ok sampleUserInfo)).2 req2 ex2 ui2).1 ≠ none)
      ∧ (HttpRequest.pathname { pathname := "/other", codeParam := none } = "/code" →
          truthy (HttpRequest.codeParam { pathname := "/other", codeParam := none })
            = false →
          (handleRequest sampleClient { listening := true, store := emptyStore }
              { pathname := "/other", codeParam := none } (some sampleToken)
              (.ok sampleUserInfo)).1 = { status := 400, body := "" }
          ∧ (handleRequest sampleClient { listening := true, store := emptyStore }
              { pathname := "/other", codeParam := none } (some sampleToken)
              (.ok sampleUserInfo)).2.listening = true
          ∧ ∀ req2 ex2 ui2,
              (serveRequest sampleClient
                (handleRequest sampleClient
                  { listening := true, store := emptyStore }
                  { pathname := "/other", codeParam := none } (some sampleToken)
                  (.ok sampleUserInfo)).2 req2 ex2 ui2).1 ≠ none)
      ∧ (HttpRequest.pathname { pathname := "/other", codeParam := none } = "/code" →
          truthy (HttpRequest.codeParam { pathname := "/other", codeParam := none })
            = true →
          (handleRequest sampleClient { listening := true, store := emptyStore }
              { pathname := "/other", codeParam := none } (some sampleToken)
              (.ok sampleUserInfo)).1
            = { status := 200, body := "Auth successful! You can close the tab!" })) :=
  ⟨rfl,
   handleRequest_response_shape sampleClient { listening := true, store := emptyStore }
     { pathname := "/other", codeParam := none } (some sampleToken)
     (.ok sampleUserInfo) rfl⟩
